import Mathlib

/-
Verification of the activity-classification core of the LaurierCS/ScheduleApp
CI automation (`.github/scripts/data_collector.py`, `utils.py`, `notifier.py`).

Modelling conventions:
* Timestamps are integers (seconds).  The source stores ISO-8601 UTC strings
  of the fixed format `%Y-%m-%dT%H:%M:%SZ` and compares them lexicographically,
  which agrees with chronological (hence integer) order for that format.
* `datetime.now()` is modelled by a single parameter `now`; `timedelta(days=n)`
  is `n * day` seconds.
* The gateway (`github_client.py`) catches all of its own errors and returns
  empty results; a frozen snapshot of its responses is a `Snapshot` of pure
  functions.  The one fallible operation inside the classifier's `try` block
  is `datetime.strptime(last_assigned_date, ...)` (data_collector.py line 132),
  modelled by `RawDate`/`parseRaw`: a `RawDate.malformed` value raises, which
  the surrounding `except` turns into the fallback record.
-/

namespace ScheduleApp

/-- One day in seconds, the unit of `timedelta(days=1)`. -/
def day : Int := 86400

/-- A timestamp string as returned by the API: either well formed
(`%Y-%m-%dT%H:%M:%SZ`, modelled by its integer value) or malformed. -/
inductive RawDate where
  | valid (t : Int)
  | malformed (s : String)
deriving DecidableEq

/-- Models `datetime.strptime(d, "%Y-%m-%dT%H:%M:%SZ")`: succeeds on a well
formed date, raises `ValueError` on a malformed one. -/
def parseRaw : RawDate → Except String Int
  | .valid t => .ok t
  | .malformed s =>
      .error ("time data " ++ s ++ " does not match format %Y-%m-%dT%H:%M:%SZ")

/-- A pull-request item as consumed by the classifier: `pr.get("user", \x7b\x7d).get("login")`
and `pr.get("updated_at")`, each possibly absent. -/
structure PRData where
  author : Option String
  updated_at : Option Int
deriving DecidableEq

/-- A comment item: only `comment.get("updated_at")` is consumed. -/
structure CommentData where
  updated_at : Option Int
deriving DecidableEq

/-- An assigned-issue item: only `issue.get("number")` is consumed.
GitHub issue numbers are naturals; `0` is falsy in Python, like `None`. -/
structure IssueData where
  number : Option Nat
deriving DecidableEq

/-- A frozen snapshot of the API gateway's responses
(`github_client.py`); every method returns rather than raising.
`user_prs` takes (username, since_date, check_existence_only, merged_only)
and returns (items, total_count); items may contain `None` entries. -/
structure Snapshot where
  assigned_issues : String → List IssueData
  user_prs : String → Int → Bool → Bool → List (Option PRData) × Nat
  user_comments : String → Int → Bool → List CommentData
  user_open_prs : String → List PRData
  issue_assignment_date : Nat → String → Option Int
  last_assigned_date : String → Option RawDate

/-- Classifier configuration: `inactivity_threshold_days` and
`no_issues_threshold_days` (config.py, defaults 7 and 3). -/
structure Config where
  inactivity_threshold_days : Nat
  no_issues_threshold_days : Nat
deriving DecidableEq

/-- The `stats` sub-dictionary of a developer activity record
(data_collector.py lines 163-171). -/
structure Stats where
  prs_created : Nat
  prs_merged : Nat
  issues_assigned : Nat
  comments : Nat
  last_activity_date : Option Int
  last_activity_type : Option String
  last_activity_display : String
deriving DecidableEq

/-- A developer activity record, the dictionary returned by
`collect_developer_data` (data_collector.py lines 161-177 and 181-197). -/
structure Record where
  username : String
  stats : Stats
  has_assigned_issues : Bool
  is_inactive : Bool
  inactivity_reason : Option String
  has_no_issues : Bool
  last_assigned_date : Option RawDate
deriving DecidableEq

/-- Models `format_date_display` (utils.py lines 9-26): "unknown" for an
absent date, otherwise "today" / "yesterday" / "N days ago" from
`(datetime.now() - date_time).days`, which is floor division. -/
def format_date_display (now : Int) : Option Int → String
  | none => "unknown"
  | some t =>
      let days_ago : Int := (now - t).fdiv day
      if days_ago = 0 then "today"
      else if days_ago = 1 then "yesterday"
      else toString days_ago ++ " days ago"

/-- Models `check_recent_activity` (data_collector.py lines 199-221):
(a) any PR created since the cutoff (existence-only query), then
(b) any open PR whose `updated_at` is on/after the cutoff, then
(c) any comment since the cutoff (existence-only query); short-circuits. -/
def check_recent_activity (s : Snapshot) (u : String) (cutoff : Int) :
    Bool × Option String :=
  let prs := (s.user_prs u cutoff true false).1
  if !prs.isEmpty then (true, some "created a pull request")
  else
    let open_prs := s.user_open_prs u
    if open_prs.any (fun pr =>
        match pr.updated_at with
        | some t => decide (cutoff ≤ t)
        | none => false) then
      (true, some "has active pull requests")
    else
      let comments := s.user_comments u cutoff true
      if !comments.isEmpty then (true, some "commented on issues")
      else (false, none)

/-- Models `check_activity_since_assignment` (data_collector.py lines
223-254): `False` on an absent assignment date; `True` while the grace
period `assignment_date + threshold` has not yet passed; otherwise the
recent-activity probe re-run with the shifted cutoff. -/
def check_activity_since_assignment (s : Snapshot) (u : String)
    (assignment_date : Option Int) (inactivity_threshold_days : Nat)
    (now : Int) : Bool :=
  match assignment_date with
  | none => false
  | some d =>
      let since := d + (inactivity_threshold_days : Int) * day
      if now < since then true
      else (check_recent_activity s u since).1

/-- Models the PR author verification loop (data_collector.py lines 38-49):
skip `None` entries, keep a PR iff `pr["user"]["login"] == username`. -/
def verified_prs (prs : List (Option PRData)) (u : String) : List PRData :=
  prs.filterMap (fun x =>
    match x with
    | none => none
    | some pr => if pr.author = some u then some pr else none)

/-- Models the open-PR author filter (data_collector.py lines 61-69). -/
def filtered_open_prs (open_prs : List PRData) (u : String) : List PRData :=
  open_prs.filter (fun pr => decide (pr.author = some u))

/-- Models the most-recent-activity scan (data_collector.py lines 71-100):
seed from `prs[0]`, then fold over the open PRs, then compare against
`comments[0]`; timestamps compared as strings, i.e. chronologically. -/
def last_activity (prs : List PRData) (open_prs : List PRData)
    (comments : List CommentData) : Option Int × Option String :=
  let st0 : Option Int × Option String :=
    match prs with
    | [] => (none, none)
    | pr :: _ =>
        match pr.updated_at with
        | some t => (some t, some "PR")
        | none => (none, none)
  let st1 := open_prs.foldl (fun st pr =>
    match pr.updated_at with
    | some t =>
        match st.1 with
        | none => (some t, some "PR")
        | some cur => if cur < t then (some t, some "PR") else st
    | none => st) st0
  match comments with
  | [] => st1
  | c :: _ =>
      match c.updated_at with
      | some t =>
          match st1.1 with
          | none => (some t, some "comment")
          | some cur => if cur < t then (some t, some "comment") else st1
      | none => st1

/-- Models the inactivity verdict (data_collector.py lines 102-125): recent
activity clears the developer; otherwise with assigned issues, any issue
passing `check_activity_since_assignment` clears them (issues with a falsy
number are skipped), else reason "no activity since issue assignment";
with no assigned issues, reason "no recent activity and no assigned issues". -/
def inactivity_verdict (s : Snapshot) (u : String)
    (inactivity_threshold_days : Nat) (now : Int)
    (has_recent_activity : Bool) (has_assigned_issues : Bool)
    (assigned_issues : List IssueData) : Bool × Option String :=
  if has_recent_activity then (false, none)
  else if has_assigned_issues then
    let active_since_assignment := assigned_issues.any (fun issue =>
      match issue.number with
      | none => false
      | some n =>
          if n = 0 then false
          else check_activity_since_assignment s u
            (s.issue_assignment_date n u) inactivity_threshold_days now)
    if active_since_assignment then (false, none)
    else (true, some "no activity since issue assignment")
  else (true, some "no recent activity and no assigned issues")

/-- Models the no-issues verdict (data_collector.py lines 127-133).  With no
assigned issues, `github.get_last_assigned_date` is consulted; a present
value is parsed with `strptime`, which is the one raise point inside the
classifier's `try` block, hence the `Except`. -/
def no_issues_verdict (s : Snapshot) (u : String) (no_issues_cutoff : Int)
    (has_assigned_issues : Bool) : Except String (Bool × Option RawDate) :=
  if has_assigned_issues then .ok (false, none)
  else
    match s.last_assigned_date u with
    | none => .ok (true, none)
    | some raw =>
        match parseRaw raw with
        | .error e => .error e
        | .ok t => .ok (decide (t ≤ no_issues_cutoff), some raw)

/-- Models the reason refinement (data_collector.py lines 140-149), applied
when the developer is inactive but no reason has been assigned yet. -/
def refine_reason (is_inactive : Bool) (reason : Option String)
    (prs open_prs : List PRData) (merged_prs_count : Nat)
    (comments : List CommentData) (inactivity_threshold_days : Nat) :
    Option String :=
  if is_inactive && reason.isNone then
    if prs.length = 0 && open_prs.isEmpty then
      some "no pull requests created recently"
    else if merged_prs_count = 0 then
      some "no pull requests merged recently"
    else if comments.length = 0 then
      some "no comments on issues/prs recently"
    else
      some ("no activity in the past " ++ toString inactivity_threshold_days
        ++ " days")
  else reason

/-- The record assembled by the non-raising parts of `collect_developer_data`
(data_collector.py lines 14-125 and 135-177), given the outcome of the
no-issues block (the only raise point, lines 127-133). -/
def build_record (s : Snapshot) (u : String) (cfg : Config) (now : Int)
    (has_no_issues : Bool) (last_assigned_date : Option RawDate) : Record :=
  let inactivity_threshold_days := cfg.inactivity_threshold_days
  let inactivity_cutoff := now - (inactivity_threshold_days : Int) * day
  let stats_cutoff := now - 30 * day
  let assigned_issues := s.assigned_issues u
  let has_assigned_issues := !assigned_issues.isEmpty
  let has_recent_activity := (check_recent_activity s u inactivity_cutoff).1
  let prs := verified_prs (s.user_prs u stats_cutoff false false).1 u
  let merged_prs_count := (s.user_prs u stats_cutoff false true).2
  let comments := s.user_comments u stats_cutoff false
  let open_prs := filtered_open_prs (s.user_open_prs u) u
  let la := last_activity prs open_prs comments
  let iv := inactivity_verdict s u inactivity_threshold_days now
    has_recent_activity has_assigned_issues assigned_issues
  let last_activity_display :=
    match la.1 with
    | none => "never"
    | some t => format_date_display now (some t)
  let inactivity_reason := refine_reason iv.1 iv.2 prs open_prs
    merged_prs_count comments inactivity_threshold_days
  { username := u
    stats :=
      { prs_created := prs.length
        prs_merged := merged_prs_count
        issues_assigned := assigned_issues.length
        comments := comments.length
        last_activity_date := la.1
        last_activity_type := la.2
        last_activity_display := last_activity_display }
    has_assigned_issues := has_assigned_issues
    is_inactive := iv.1
    inactivity_reason := inactivity_reason
    has_no_issues := has_no_issues
    last_assigned_date := last_assigned_date }

/-- The body of `collect_developer_data`'s `try` block: builds the record,
propagating the one possible exception (the `strptime` of
`last_assigned_date` at data_collector.py line 132). -/
def collect_core (s : Snapshot) (u : String) (cfg : Config) (now : Int) :
    Except String Record :=
  match no_issues_verdict s u
      (now - (cfg.no_issues_threshold_days : Int) * day)
      (!(s.assigned_issues u).isEmpty) with
  | .error e => .error e
  | .ok (hn, lad) => .ok (build_record s u cfg now hn lad)

/-- Models the fallback record returned by the `except` branch
(data_collector.py lines 178-197), with `e` the text of the exception. -/
def fallback_record (u : String) (e : String) : Record :=
  { username := u
    stats :=
      { prs_created := 0
        prs_merged := 0
        issues_assigned := 0
        comments := 0
        last_activity_date := none
        last_activity_type := none
        last_activity_display := "error collecting data" }
    has_assigned_issues := false
    is_inactive := true
    inactivity_reason := some ("error collecting data: " ++ e)
    has_no_issues := true
    last_assigned_date := none }

/-- Models `collect_developer_data` (data_collector.py lines 9-197):
the `try` body, with any exception replaced by the fallback record. -/
def collect_developer_data (s : Snapshot) (u : String) (cfg : Config)
    (now : Int) : Record :=
  match collect_core s u cfg now with
  | .ok r => r
  | .error e => fallback_record u e

/-- One entry of the `no_issues_devs` list built by
`send_discord_notification` (notifier.py lines 30-33): the "last_assigned"
value is taken from `dev["stats"]["last_activity_display"]`. -/
structure NoIssuesEntry where
  username : String
  last_assigned : String
deriving DecidableEq

/-- Models the `no_issues_devs` extraction (notifier.py lines 30-33). -/
def no_issues_devs (all_data : List Record) : List NoIssuesEntry :=
  (all_data.filter (fun dev => dev.has_no_issues)).map (fun dev =>
    { username := dev.username
      last_assigned := dev.stats.last_activity_display })

/-- Models the rendered field value for one no-issues developer
(notifier.py lines 142-148). -/
def no_issues_field_value (e : NoIssuesEntry) : String :=
  "last assigned: " ++ e.last_assigned

/-- The default configuration: inactivity threshold 7 days, no-issues
threshold 3 days (config.py). -/
def cfg0 : Config :=
  { inactivity_threshold_days := 7, no_issues_threshold_days := 3 }

/-- A snapshot in which every gateway query returns an empty result. -/
def emptySnapshot : Snapshot where
  assigned_issues := fun _ => []
  user_prs := fun _ _ _ _ => ([], 0)
  user_comments := fun _ _ _ => []
  user_open_prs := fun _ => []
  issue_assignment_date := fun _ _ => none
  last_assigned_date := fun _ => none

/-- A snapshot whose PR search always reports one PR by alice. -/
def snapPR : Snapshot :=
  { emptySnapshot with
      user_prs := fun _ _ _ _ =>
        ([some { author := some "alice", updated_at := some (999 * day) }], 1) }

/-- A snapshot with one assigned issue (number 5) assigned on day 995. -/
def snapGrace : Snapshot :=
  { emptySnapshot with
      assigned_issues := fun _ => [{ number := some 5 }]
      issue_assignment_date := fun _ _ => some (995 * day) }

/-- A snapshot with one assigned issue (number 5) assigned on day 990. -/
def snapExpired : Snapshot :=
  { emptySnapshot with
      assigned_issues := fun _ => [{ number := some 5 }]
      issue_assignment_date := fun _ _ => some (990 * day) }

/-- A snapshot with one assigned issue whose assignment date is unresolvable. -/
def snapNoDate : Snapshot :=
  { emptySnapshot with
      assigned_issues := fun _ => [{ number := some 5 }] }

/-- A snapshot whose last-assigned-date lookup yields a malformed timestamp. -/
def snapBadDate : Snapshot :=
  { emptySnapshot with
      last_assigned_date := fun _ => some (.malformed "notadate") }

/-- A snapshot with a single comment updated at day 200. -/
def snapComment : Snapshot :=
  { emptySnapshot with
      user_comments := fun _ _ _ => [{ updated_at := some (200 * day) }] }

/-- A no-issues record whose last activity was today. -/
def recToday : Record :=
  { username := "dana"
    stats :=
      { prs_created := 0, prs_merged := 0, issues_assigned := 0, comments := 1
        last_activity_date := some (200 * day)
        last_activity_type := some "comment"
        last_activity_display := "today" }
    has_assigned_issues := false
    is_inactive := false
    inactivity_reason := none
    has_no_issues := true
    last_assigned_date := none }

/-- A no-issues record whose last activity was yesterday, with the same
`last_assigned_date` as `recToday`. -/
def recYesterday : Record :=
  { username := "erin"
    stats :=
      { prs_created := 0, prs_merged := 0, issues_assigned := 0, comments := 1
        last_activity_date := some (199 * day)
        last_activity_type := some "comment"
        last_activity_display := "yesterday" }
    has_assigned_issues := false
    is_inactive := false
    inactivity_reason := none
    has_no_issues := true
    last_assigned_date := none }

/-- The inactivity verdict as instantiated inside `build_record`. -/
def iv_of (s : Snapshot) (u : String) (cfg : Config) (now : Int) :
    Bool × Option String :=
  inactivity_verdict s u cfg.inactivity_threshold_days now
    ((check_recent_activity s u
      (now - (cfg.inactivity_threshold_days : Int) * day)).1)
    (!(s.assigned_issues u).isEmpty) (s.assigned_issues u)

lemma build_record_is_inactive (s : Snapshot) (u : String) (cfg : Config)
    (now : Int) (hn : Bool) (lad : Option RawDate) :
    (build_record s u cfg now hn lad).is_inactive = (iv_of s u cfg now).1 :=
  rfl

lemma build_record_has_no_issues (s : Snapshot) (u : String) (cfg : Config)
    (now : Int) (hn : Bool) (lad : Option RawDate) :
    (build_record s u cfg now hn lad).has_no_issues = hn := rfl

lemma collect_core_ok_elim {s : Snapshot} {u : String} {cfg : Config}
    {now : Int} {r : Record} (h : collect_core s u cfg now = .ok r) :
    ∃ hn lad,
      no_issues_verdict s u (now - (cfg.no_issues_threshold_days : Int) * day)
        (!(s.assigned_issues u).isEmpty) = .ok (hn, lad) ∧
      r = build_record s u cfg now hn lad := by
  unfold collect_core at h
  split at h
  · cases h
  · next hn lad heq =>
      cases h
      exact ⟨hn, lad, heq, rfl⟩

lemma collect_data_ok {s : Snapshot} {u : String} {cfg : Config} {now : Int}
    {r : Record} (h : collect_core s u cfg now = .ok r) :
    collect_developer_data s u cfg now = r := by
  unfold collect_developer_data
  rw [h]

lemma collect_data_err {s : Snapshot} {u : String} {cfg : Config} {now : Int}
    {e : String} (h : collect_core s u cfg now = .error e) :
    collect_developer_data s u cfg now = fallback_record u e := by
  unfold collect_developer_data
  rw [h]

lemma inactivity_verdict_cases (s : Snapshot) (u : String) (thr : Nat)
    (now : Int) (hra hai : Bool) (issues : List IssueData) :
    inactivity_verdict s u thr now hra hai issues = (false, none) ∨
    inactivity_verdict s u thr now hra hai issues
      = (true, some "no activity since issue assignment") ∨
    inactivity_verdict s u thr now hra hai issues
      = (true, some "no recent activity and no assigned issues") := by
  cases hra <;> cases hai <;>
    simp only [inactivity_verdict, Bool.false_eq_true, if_false, if_true] <;>
    first
      | (split <;> simp)
      | simp

lemma refine_reason_iv (s : Snapshot) (u : String) (thr : Nat) (now : Int)
    (hra hai : Bool) (issues : List IssueData) (prs oprs : List PRData)
    (merged : Nat) (comments : List CommentData) :
    refine_reason (inactivity_verdict s u thr now hra hai issues).1
      (inactivity_verdict s u thr now hra hai issues).2 prs oprs merged
      comments thr
      = (inactivity_verdict s u thr now hra hai issues).2 := by
  rcases inactivity_verdict_cases s u thr now hra hai issues with h | h | h <;>
    rw [h] <;> simp [refine_reason]

lemma build_record_reason (s : Snapshot) (u : String) (cfg : Config)
    (now : Int) (hn : Bool) (lad : Option RawDate) :
    (build_record s u cfg now hn lad).inactivity_reason
      = (iv_of s u cfg now).2 :=
  refine_reason_iv s u cfg.inactivity_threshold_days now
    ((check_recent_activity s u
      (now - (cfg.inactivity_threshold_days : Int) * day)).1)
    (!(s.assigned_issues u).isEmpty) (s.assigned_issues u)
    (verified_prs (s.user_prs u (now - 30 * day) false false).1 u)
    (filtered_open_prs (s.user_open_prs u) u)
    (s.user_prs u (now - 30 * day) false true).2
    (s.user_comments u (now - 30 * day) false)

/-- C1: whenever the recent-activity probe (`check_recent_activity` at the
cutoff `now - inactivityThresholdDays`) finds qualifying evidence, the
record produced by a non-raising run of `collect_developer_data` has
`is_inactive = false`. -/
theorem spec_c1 (s : Snapshot) (u : String) (cfg : Config) (now : Int)
    (r : Record)
    (hact : (check_recent_activity s u
      (now - (cfg.inactivity_threshold_days : Int) * day)).1 = true)
    (hok : collect_core s u cfg now = .ok r) :
    r.is_inactive = false := by
  obtain ⟨hn, lad, hv, rfl⟩ := collect_core_ok_elim hok
  rw [build_record_is_inactive]
  unfold iv_of inactivity_verdict
  rw [hact]
  simp

theorem spec_c1_witness :
    (collect_developer_data snapPR "alice" cfg0 (1000 * day)).is_inactive
      = false :=
  spec_c1 snapPR "alice" cfg0 (1000 * day)
    (collect_developer_data snapPR "alice" cfg0 (1000 * day))
    (by decide) rfl

/-- C4: in every record `collect_developer_data` produces, including the
fallback record of the `except` branch, `inactivity_reason` is present iff
`is_inactive` is true. -/
theorem spec_c4 (s : Snapshot) (u : String) (cfg : Config) (now : Int) :
    ((collect_developer_data s u cfg now).inactivity_reason).isSome
      = (collect_developer_data s u cfg now).is_inactive := by
  cases hok : collect_core s u cfg now with
  | error e => rw [collect_data_err hok]; rfl
  | ok r =>
      rw [collect_data_ok hok]
      obtain ⟨hn, lad, hv, rfl⟩ := collect_core_ok_elim hok
      rw [build_record_reason, build_record_is_inactive]
      rcases inactivity_verdict_cases s u cfg.inactivity_threshold_days now
          ((check_recent_activity s u
            (now - (cfg.inactivity_threshold_days : Int) * day)).1)
          (!(s.assigned_issues u).isEmpty) (s.assigned_issues u)
        with h | h | h <;> simp [iv_of, h]

/-- C9: in every non-raising run of `collect_developer_data`, the
inactivity reason is absent or one of exactly the two reasons assigned in
the verdict block; the refined reasons of lines 140-149 are unreachable. -/
theorem spec_c9 (s : Snapshot) (u : String) (cfg : Config) (now : Int)
    (r : Record) (hok : collect_core s u cfg now = .ok r) :
    r.inactivity_reason = none ∨
    r.inactivity_reason = some "no activity since issue assignment" ∨
    r.inactivity_reason = some "no recent activity and no assigned issues" := by
  obtain ⟨hn, lad, hv, rfl⟩ := collect_core_ok_elim hok
  rw [build_record_reason]
  unfold iv_of
  rcases inactivity_verdict_cases s u cfg.inactivity_threshold_days now
      ((check_recent_activity s u
        (now - (cfg.inactivity_threshold_days : Int) * day)).1)
      (!(s.assigned_issues u).isEmpty) (s.assigned_issues u)
    with h | h | h <;> rw [h] <;> simp

theorem spec_c9_witness :
    (collect_developer_data emptySnapshot "alice" cfg0 (1000 * day)).inactivity_reason
        = none ∨
    (collect_developer_data emptySnapshot "alice" cfg0 (1000 * day)).inactivity_reason
        = some "no activity since issue assignment" ∨
    (collect_developer_data emptySnapshot "alice" cfg0 (1000 * day)).inactivity_reason
        = some "no recent activity and no assigned issues" :=
  spec_c9 emptySnapshot "alice" cfg0 (1000 * day)
    (collect_developer_data emptySnapshot "alice" cfg0 (1000 * day)) rfl

/-- C6: whenever the record-building body raises (modelled by
`collect_core` returning an error), `collect_developer_data` returns the
fallback record: zero stats, `is_inactive = true`, `has_no_issues = true`,
and a reason containing the error text. -/
theorem spec_c6 (s : Snapshot) (u : String) (cfg : Config) (now : Int)
    (e : String) (herr : collect_core s u cfg now = .error e) :
    collect_developer_data s u cfg now = fallback_record u e ∧
    (collect_developer_data s u cfg now).stats.prs_created = 0 ∧
    (collect_developer_data s u cfg now).stats.prs_merged = 0 ∧
    (collect_developer_data s u cfg now).stats.issues_assigned = 0 ∧
    (collect_developer_data s u cfg now).stats.comments = 0 ∧
    (collect_developer_data s u cfg now).is_inactive = true ∧
    (collect_developer_data s u cfg now).has_no_issues = true ∧
    (collect_developer_data s u cfg now).inactivity_reason
      = some ("error collecting data: " ++ e) := by
  have h := collect_data_err herr
  rw [h]
  exact ⟨rfl, rfl, rfl, rfl, rfl, rfl, rfl, rfl⟩

theorem spec_c6_witness :
    collect_developer_data snapBadDate "carol" cfg0 (1000 * day)
      = fallback_record "carol"
          "time data notadate does not match format %Y-%m-%dT%H:%M:%SZ" :=
  (spec_c6 snapBadDate "carol" cfg0 (1000 * day)
    "time data notadate does not match format %Y-%m-%dT%H:%M:%SZ" rfl).1

/-- C7 counterexample: the record depends on `datetime.now()`, which is not
part of the frozen API snapshot; the same snapshot classified at two
different times yields different records (here "today" vs "yesterday" in
`last_activity_display`). -/
theorem spec_c7_counterexample :
    collect_developer_data snapComment "alice" cfg0 (200 * day)
      ≠ collect_developer_data snapComment "alice" cfg0 (201 * day) := by
  decide

/-- C7 (amended): with the API snapshot and the clock reading both frozen,
classification is deterministic — two evaluations of
`collect_developer_data` on the same inputs yield equal records. -/
theorem spec_c7 (s : Snapshot) (u : String) (cfg : Config) (now : Int)
    (r1 r2 : Record)
    (h1 : r1 = collect_developer_data s u cfg now)
    (h2 : r2 = collect_developer_data s u cfg now) :
    r1 = r2 :=
  h1.trans h2.symm

theorem spec_c7_witness :
    collect_developer_data snapComment "alice" cfg0 (200 * day)
      = collect_developer_data snapComment "alice" cfg0 (200 * day) :=
  spec_c7 snapComment "alice" cfg0 (200 * day)
    (collect_developer_data snapComment "alice" cfg0 (200 * day))
    (collect_developer_data snapComment "alice" cfg0 (200 * day)) rfl rfl

/-- C2: a developer with no qualifying recent activity whose only assigned
issue was assigned less than `inactivityThresholdDays` ago is classified
`is_inactive = false`, and the grace-period rule fires for that issue
independently of any further probe (for every snapshot). -/
theorem spec_c2 (s : Snapshot) (u : String) (cfg : Config) (now : Int)
    (n : Nat) (d : Int)
    (hnr : (check_recent_activity s u
      (now - (cfg.inactivity_threshold_days : Int) * day)).1 = false)
    (hissues : s.assigned_issues u = [{ number := some n }])
    (hn0 : n ≠ 0)
    (hdate : s.issue_assignment_date n u = some d)
    (hgrace : now < d + (cfg.inactivity_threshold_days : Int) * day) :
    (collect_developer_data s u cfg now).is_inactive = false ∧
    ∀ s2 : Snapshot, check_activity_since_assignment s2 u (some d)
      cfg.inactivity_threshold_days now = true := by
  have hcs : ∀ s2 : Snapshot, check_activity_since_assignment s2 u (some d)
      cfg.inactivity_threshold_days now = true := by
    intro s2
    simp [check_activity_since_assignment, hgrace]
  have hai : (!(s.assigned_issues u).isEmpty) = true := by
    rw [hissues]; rfl
  have hco : collect_core s u cfg now
      = .ok (build_record s u cfg now false none) := by
    unfold collect_core
    rw [hai]
    simp [no_issues_verdict]
  refine ⟨?_, hcs⟩
  rw [collect_data_ok hco, build_record_is_inactive]
  unfold iv_of inactivity_verdict
  rw [hnr, hai, hissues]
  simp [hn0, hdate, hcs]

theorem spec_c2_witness :
    (collect_developer_data snapGrace "bob" cfg0 (1000 * day)).is_inactive
      = false :=
  (spec_c2 snapGrace "bob" cfg0 (1000 * day) 5 (995 * day)
    (by decide) rfl (by decide) rfl (by decide)).1

/-- C3: a developer with no qualifying recent activity, all of whose
assigned issues have a resolvable assignment date whose grace period
`assignmentDate + inactivityThresholdDays` has already passed and for
which the re-run probe finds nothing, is classified `is_inactive = true`
with reason "no activity since issue assignment". -/
theorem spec_c3 (s : Snapshot) (u : String) (cfg : Config) (now : Int)
    (hnr : (check_recent_activity s u
      (now - (cfg.inactivity_threshold_days : Int) * day)).1 = false)
    (hne : s.assigned_issues u ≠ [])
    (hall : ∀ issue ∈ s.assigned_issues u, ∃ n : Nat, ∃ d : Int,
      issue.number = some n ∧ n ≠ 0 ∧
      s.issue_assignment_date n u = some d ∧
      d + (cfg.inactivity_threshold_days : Int) * day ≤ now ∧
      (check_recent_activity s u
        (d + (cfg.inactivity_threshold_days : Int) * day)).1 = false) :
    (collect_developer_data s u cfg now).is_inactive = true ∧
    (collect_developer_data s u cfg now).inactivity_reason
      = some "no activity since issue assignment" := by
  have hai : (!(s.assigned_issues u).isEmpty) = true := by
    cases h : s.assigned_issues u with
    | nil => exact absurd h hne
    | cons a l => rfl
  have hco : collect_core s u cfg now
      = .ok (build_record s u cfg now false none) := by
    unfold collect_core
    rw [hai]
    simp [no_issues_verdict]
  have hany : (s.assigned_issues u).any (fun issue =>
      match issue.number with
      | none => false
      | some n =>
          if n = 0 then false
          else check_activity_since_assignment s u
            (s.issue_assignment_date n u) cfg.inactivity_threshold_days now)
      = false := by
    rw [List.any_eq_false]
    intro issue hmem
    obtain ⟨n, d, hnum, hn0, hdate, hle, hprobe⟩ := hall issue hmem
    have hnl : ¬ (now < d + (cfg.inactivity_threshold_days : Int) * day) := by
      omega
    rw [hnum]
    simp [check_activity_since_assignment, hdate, hn0, hnl, hprobe]
  rw [collect_data_ok hco]
  constructor
  · rw [build_record_is_inactive]
    unfold iv_of inactivity_verdict
    rw [hnr, hai, hany]
    simp
  · rw [build_record_reason]
    unfold iv_of inactivity_verdict
    rw [hnr, hai, hany]
    simp

theorem spec_c3_witness :
    (collect_developer_data snapExpired "bob" cfg0 (1000 * day)).is_inactive
      = true :=
  (spec_c3 snapExpired "bob" cfg0 (1000 * day) (by decide) (by decide)
    (by
      intro issue hmem
      rw [show issue = { number := some 5 } from by
        simpa [snapExpired, emptySnapshot] using hmem]
      exact ⟨5, 990 * day, rfl, by decide, rfl, by decide, by decide⟩)).1

/-- C5: in every non-raising run, `has_no_issues` is true iff the developer
has no currently assigned open issues and either was never assigned any
issue or the last assignment is at or before `now - noIssuesThresholdDays`. -/
theorem spec_c5 (s : Snapshot) (u : String) (cfg : Config) (now : Int)
    (r : Record) (hok : collect_core s u cfg now = .ok r) :
    r.has_no_issues = true ↔
      (s.assigned_issues u = [] ∧
        (s.last_assigned_date u = none ∨
          ∃ t : Int, s.last_assigned_date u = some (.valid t) ∧
            t ≤ now - (cfg.no_issues_threshold_days : Int) * day)) := by
  obtain ⟨hn, lad, hv, rfl⟩ := collect_core_ok_elim hok
  rw [build_record_has_no_issues]
  unfold no_issues_verdict at hv
  cases hemp : (s.assigned_issues u).isEmpty with
  | false =>
      have hne : s.assigned_issues u ≠ [] := by
        simpa [List.isEmpty_iff] using hemp
      rw [hemp] at hv
      simp at hv
      obtain ⟨h1, h2⟩ := hv
      subst h1
      simp [hne]
  | true =>
      have hnil : s.assigned_issues u = [] := by
        simpa [List.isEmpty_iff] using hemp
      rw [hemp] at hv
      simp at hv
      cases hlad : s.last_assigned_date u with
      | none =>
          rw [hlad] at hv
          simp at hv
          obtain ⟨h1, h2⟩ := hv
          subst h1
          simp [hnil, hlad]
      | some raw =>
          rw [hlad] at hv
          cases raw with
          | valid t =>
              simp [parseRaw] at hv
              obtain ⟨h1, h2⟩ := hv
              subst h1
              simp [hnil, hlad, decide_eq_true_eq]
          | malformed m =>
              simp [parseRaw] at hv

theorem spec_c5_witness :
    (collect_developer_data emptySnapshot "eve" cfg0 (1000 * day)).has_no_issues
      = true :=
  (spec_c5 emptySnapshot "eve" cfg0 (1000 * day)
    (collect_developer_data emptySnapshot "eve" cfg0 (1000 * day)) rfl).mpr
    ⟨rfl, Or.inl rfl⟩

/-- C8: with no qualifying recent activity and at least one assigned issue,
if the assignment-date lookup is absent for every assigned issue, then
`check_activity_since_assignment` is false for each issue and the record is
`is_inactive = true` with reason "no activity since issue assignment". -/
theorem spec_c8 (s : Snapshot) (u : String) (cfg : Config) (now : Int)
    (hnr : (check_recent_activity s u
      (now - (cfg.inactivity_threshold_days : Int) * day)).1 = false)
    (hne : s.assigned_issues u ≠ [])
    (habs : ∀ issue ∈ s.assigned_issues u, ∀ n : Nat, issue.number = some n →
      s.issue_assignment_date n u = none) :
    (∀ issue ∈ s.assigned_issues u, ∀ n : Nat, issue.number = some n →
      check_activity_since_assignment s u (s.issue_assignment_date n u)
        cfg.inactivity_threshold_days now = false) ∧
    (collect_developer_data s u cfg now).is_inactive = true ∧
    (collect_developer_data s u cfg now).inactivity_reason
      = some "no activity since issue assignment" := by
  have hfalse : ∀ issue ∈ s.assigned_issues u, ∀ n : Nat,
      issue.number = some n →
      check_activity_since_assignment s u (s.issue_assignment_date n u)
        cfg.inactivity_threshold_days now = false := by
    intro issue hmem n hnum
    rw [habs issue hmem n hnum]
    rfl
  have hai : (!(s.assigned_issues u).isEmpty) = true := by
    cases h : s.assigned_issues u with
    | nil => exact absurd h hne
    | cons a l => rfl
  have hco : collect_core s u cfg now
      = .ok (build_record s u cfg now false none) := by
    unfold collect_core
    rw [hai]
    simp [no_issues_verdict]
  have hany : (s.assigned_issues u).any (fun issue =>
      match issue.number with
      | none => false
      | some n =>
          if n = 0 then false
          else check_activity_since_assignment s u
            (s.issue_assignment_date n u) cfg.inactivity_threshold_days now)
      = false := by
    rw [List.any_eq_false]
    intro issue hmem
    cases hnum : issue.number with
    | none => simp [hnum]
    | some n =>
        rcases Nat.eq_zero_or_pos n with h0 | hpos
        · simp [hnum, h0]
        · have hn0 : ¬ n = 0 := by omega
          simp [hnum, hn0, hfalse issue hmem n hnum]
  refine ⟨hfalse, ?_, ?_⟩
  · rw [collect_data_ok hco, build_record_is_inactive]
    unfold iv_of inactivity_verdict
    rw [hnr, hai, hany]
    simp
  · rw [collect_data_ok hco, build_record_reason]
    unfold iv_of inactivity_verdict
    rw [hnr, hai, hany]
    simp

theorem spec_c8_witness :
    (collect_developer_data snapNoDate "bob" cfg0 (1000 * day)).is_inactive
      = true :=
  (spec_c8 snapNoDate "bob" cfg0 (1000 * day) (by decide) (by decide)
    (fun _ _ _ _ => rfl)).2.1

/-- C10: the no-issues section of the Discord notification renders its
"last assigned" value from `stats.last_activity_display`, so two records
with identical `last_assigned_date` but different last-activity displays
show different "last assigned" values. -/
theorem spec_c10 (d1 d2 : Record)
    (h1 : d1.has_no_issues = true) (h2 : d2.has_no_issues = true)
    (_heq : d1.last_assigned_date = d2.last_assigned_date)
    (hne : d1.stats.last_activity_display ≠ d2.stats.last_activity_display) :
    no_issues_devs [d1, d2]
      = [{ username := d1.username,
           last_assigned := d1.stats.last_activity_display },
         { username := d2.username,
           last_assigned := d2.stats.last_activity_display }] ∧
    (no_issues_devs [d1, d2]).map NoIssuesEntry.last_assigned
      = [d1.stats.last_activity_display, d2.stats.last_activity_display] ∧
    d1.stats.last_activity_display ≠ d2.stats.last_activity_display := by
  refine ⟨?_, ?_, hne⟩ <;> simp [no_issues_devs, List.filter, h1, h2]

theorem spec_c10_witness :
    no_issues_devs [recToday, recYesterday]
      = [{ username := "dana", last_assigned := "today" },
         { username := "erin", last_assigned := "yesterday" }] :=
  (spec_c10 recToday recYesterday rfl rfl rfl (by decide)).1

end ScheduleApp
